import Mathlib

/-!
Verification of the vecro-mongodb workload service
(src/container_images/vecro-mongodb/main.go).

The file embeds the request-handling pipeline (base workload service,
logging / instrumenting / tracing middleware, endpoint adapter), the
startup sequence (configuration resolution, store connection) and the
transport finalizer, and proves the specified properties about them.

Several functions of the package (baseService.Execute, loggingMiddleware,
instrumentingMiddleware, makeBaseEndPoint, getEnvInt, getEnvString, the
propagator) are declared outside the provided file; those are modelled
from the specification, as marked in their doc comments.
-/

deriving instance DecidableEq for Except

namespace Vecro

/-- Kind of a Store Gateway operation. -/
inductive OpKind
| read
| write
deriving DecidableEq

/-- Observable events emitted by the layers of the request pipeline, in
the order they happen during one inbound call. -/
inductive Ev
| spanStart
| spanEnd
| instrBefore
| instrAfter
| logBefore
| logAfter
| storeOp (k : OpKind)
deriving DecidableEq

/-- A store-operation error (payload irrelevant to the pipeline). -/
inductive StoreErr
| err
deriving DecidableEq

/-- The response of the Base Workload Service: the aggregated byte size
of all store operations performed for the call. -/
structure Response where
  byteTotal : Nat
deriving DecidableEq

/-- A Store Gateway behaviour for one call: the result (byte size or
error) of the i-th store operation issued by the call. -/
def Store := Nat → Except StoreErr Nat

/-- A service (the go-kit Service shape specialised to what the pipeline
observes): given the store behaviour, the call's result together with
the trace of events it emitted. -/
def Service := Store → Except StoreErr Response × List Ev

/-- An endpoint has the same observable shape as a service. -/
def Endpoint := Store → Except StoreErr Response × List Ev

/-- The sequence of store operations one call performs: `r` reads
followed by `w` writes. -/
def opsList (r w : Nat) : List OpKind :=
  List.replicate r OpKind.read ++ List.replicate w OpKind.write

/-- Modelled from the spec: the sequential operation loop of
baseService.Execute (declared outside the provided file).  Operations
run in order; byte sizes are accumulated; the first Store Gateway
failure aborts the loop and no operation after it is issued.  The event
trace records every Store Gateway invocation. -/
def runOps (store : Store) : List OpKind → Nat → Nat → Except StoreErr Nat × List Ev
  | [], _, acc => (Except.ok acc, [])
  | op :: rest, i, acc =>
    match store i with
    | Except.error e => (Except.error e, [Ev.storeOp op])
    | Except.ok b =>
      let res := runOps store rest (i + 1) (acc + b)
      (res.1, Ev.storeOp op :: res.2)

/-- The immutable workload configuration held by the base service
(fields dbReadOps / dbWriteOps of the baseService struct in main.go). -/
structure WorkloadConfig where
  dbReadOps : Nat
  dbWriteOps : Nat
deriving DecidableEq

/-- Modelled from the spec: baseService.Execute (declared outside the
provided file) — invoke the Store Gateway for the configured number of
reads then writes, aggregate the byte sizes into the Response, fail the
whole request on the first store error. -/
def baseService (cfg : WorkloadConfig) : Service := fun store =>
  let res := runOps store (opsList cfg.dbReadOps cfg.dbWriteOps) 0 0
  (res.1.map Response.mk, res.2)

/-- Modelled from the spec: loggingMiddleware (declared outside the
provided file) — log on entry and on exit, delegate exactly once, never
alter the result. -/
def loggingMiddleware (next : Service) : Service := fun store =>
  let res := next store
  (res.1, Ev.logBefore :: res.2 ++ [Ev.logAfter])

/-- Modelled from the spec: instrumentingMiddleware (declared outside
the provided file) — capture a start timestamp before delegating,
record the request count and latency after delegating regardless of
outcome, never alter the result. -/
def instrumentingMiddleware (next : Service) : Service := fun store =>
  let res := next store
  (res.1, Ev.instrBefore :: res.2 ++ [Ev.instrAfter])

/-- Modelled from the spec: makeBaseEndPoint (declared outside the
provided file) — expose the wrapped service as an endpoint with the
same observable behaviour. -/
def makeBaseEndPoint (svc : Service) : Endpoint := svc

/-- Event-trace view of tracingMiddleware (main.go lines 63-78): start
a span, delegate exactly once, end the span on return. -/
def tracingMiddlewareEv (next : Endpoint) : Endpoint := fun store =>
  let res := next store
  (res.1, Ev.spanStart :: res.2 ++ [Ev.spanEnd])

/-- The endpoint pipeline exactly as assembled in main (main.go lines
209-219): svc := baseService; svc := loggingMiddleware(svc);
svc := instrumentingMiddleware(svc); ep := makeBaseEndPoint(svc);
ep := tracingMiddleware(ep). -/
def mainPipeline (cfg : WorkloadConfig) : Endpoint :=
  tracingMiddlewareEv (makeBaseEndPoint
    (instrumentingMiddleware (loggingMiddleware (baseService cfg))))

/-- The pipeline with the nesting order the specification describes,
Tracing(Logging(Instrumenting(Base))), written from the spec's words
for comparison with mainPipeline. -/
def specOrderPipeline (cfg : WorkloadConfig) : Endpoint :=
  tracingMiddlewareEv (makeBaseEndPoint
    (loggingMiddleware (instrumentingMiddleware (baseService cfg))))

/-- A Store Gateway that always succeeds with 10 bytes per operation. -/
def tenByteStore : Store := fun _ => Except.ok 10

/-- Number of Store Gateway invocations of kind k recorded in a trace. -/
def gatewayCalls (evs : List Ev) (k : OpKind) : Nat :=
  evs.count (Ev.storeOp k)

/-- A Store Gateway that succeeds with 10 bytes on the first operation
and fails on every later one. -/
def failSecondStore : Store := fun i =>
  if i = 0 then Except.ok 10 else Except.error StoreErr.err

/-- Identifier of a trace/span context. -/
abbrev SpanId := Nat

/-- The call context as seen by tracingMiddleware: the http request
stored under contextKeyRequest by the transport's ServerBefore (absent
when none was stored), whose headers may carry a propagated trace
context, and the active span context of the call. -/
structure Ctx where
  httpRequest : Option (Option SpanId)
  spanCtx : Option SpanId
deriving DecidableEq

/-- Modelled from the spec: propagator.Extract (the propagator is
declared outside the provided file; TraceContext propagation) — when
the header carrier holds a valid trace context, install it as the
context's span context; otherwise return the context unchanged.
Failure to extract is not an error condition. -/
def propagatorExtract (ctx : Ctx) (carrier : Option SpanId) : Ctx :=
  match carrier with
  | some sid => { ctx with spanCtx := some sid }
  | none => ctx

/-- A span as recorded by the tracer: its identifier, its parent span
context at start time, and the number of End calls it received. -/
structure Span where
  id : SpanId
  parent : Option SpanId
  endCount : Nat
deriving DecidableEq

/-- Modelled from the spec: tracer.Start (external tracer library) —
start a new span as a child of the context's current span context (a
root span when there is none) and return the span-bearing context
together with the not-yet-ended span; fresh is the new span's
identifier. -/
def tracerStart (ctx : Ctx) (fresh : SpanId) : Ctx × Span :=
  ({ ctx with spanCtx := some fresh },
   { id := fresh, parent := ctx.spanCtx, endCount := 0 })

/-- span.End(): record one end of the span. -/
def endSpan (s : Span) : Span :=
  { s with endCount := s.endCount + 1 }

/-- The outcome of an endpoint invocation: a normal return, an error
return, or abnormal termination (the Go panic path; a deferred call
still runs on it). -/
inductive Outcome (α : Type)
| ok (v : α)
| fail
| abort
deriving DecidableEq

/-- The parent-extraction step of tracingMiddleware (main.go lines
68-70): if an http request was stored in the context, extract any
propagated trace context from its headers; otherwise leave the context
as is. -/
def extractParent (ctx : Ctx) : Ctx :=
  match ctx.httpRequest with
  | some hdr => propagatorExtract ctx hdr
  | none => ctx

/-- Shallow embedding of tracingMiddleware (main.go lines 63-78): the
returned endpoint extracts the propagated parent when an inbound
request is stored in the context, starts a span, invokes the wrapped
endpoint with the span-bearing context, and — via the deferred
span.End(), which Go runs on normal return, error return and panic
alike — ends the span before returning, propagating the outcome
unchanged. -/
def tracingMiddleware {α : Type} (next : Ctx → Outcome α) (fresh : SpanId)
    (ctx : Ctx) : Outcome α × Span :=
  let started := tracerStart (extractParent ctx) fresh
  let out := next started.1
  (out, endSpan started.2)

/-- Outcome of process startup. -/
inductive StartupOutcome
| fatal
| running
deriving DecidableEq

/-- The store-connection phase of main (main.go lines 183-199):
mongo.Connect and client.Ping each panic on error, terminating the
process; only when both succeed does startup continue. -/
def storeStartup (connect : Except String Unit) (ping : Except String Unit) :
    StartupOutcome :=
  match connect with
  | Except.error _ => StartupOutcome.fatal
  | Except.ok _ =>
    match ping with
    | Except.error _ => StartupOutcome.fatal
    | Except.ok _ => StartupOutcome.running

/-- The process environment: a variable's value, when set. -/
def Env := String → Option String

/-- Value of one decimal digit (none for a non-digit character). -/
def digitVal (c : Char) : Option Nat :=
  if c.isDigit then some (c.toNat - '0'.toNat) else none

/-- Accumulate decimal digits into a number; none on a non-digit. -/
def parseDigits : List Char → Nat → Option Nat
  | [], acc => some acc
  | c :: cs, acc =>
    match digitVal c with
    | some d => parseDigits cs (acc * 10 + d)
    | none => none

/-- Decimal integer parsing in the shape of Go's strconv.Atoi: an
optional sign followed by at least one digit. -/
def atoi (s : String) : Option Int :=
  match s.data with
  | [] => none
  | '-' :: cs =>
    if cs.isEmpty then none else (parseDigits cs 0).map (fun n => -(n : Int))
  | '+' :: cs =>
    if cs.isEmpty then none else (parseDigits cs 0).map (fun n => (n : Int))
  | cs => (parseDigits cs 0).map (fun n => (n : Int))

/-- Modelled from the spec: getEnvString (declared outside the provided
file) — the variable's value when set, else the fallback default; the
accompanying error is discarded by main, so a missing value is never
fatal. -/
def getEnvString (env : Env) (key fallback : String) : String :=
  match env key with
  | some v => v
  | none => fallback

/-- Modelled from the spec: getEnvInt (declared outside the provided
file) — the parsed integer when the variable is set and well-formed,
else the fallback default; the accompanying error is discarded by main,
so a missing or malformed value is never fatal. -/
def getEnvInt (env : Env) (key : String) (fallback : Int) : Int :=
  match env key with
  | some v =>
    match atoi v with
    | some n => n
    | none => fallback
  | none => fallback

/-- The configuration main resolves once at startup (main.go lines
110-134), immutable thereafter. -/
structure Config where
  dbReadOps : Int
  dbWriteOps : Int
  dbUser : String
  dbPassword : String
  dbCollection : String
  listenAddress : String
  subsystem : String
  name : String
deriving DecidableEq

/-- Configuration resolution exactly as in main (main.go lines
117-133), with the fallback defaults passed there. -/
def resolveConfig (env : Env) : Config :=
  { dbReadOps := getEnvInt env "VECRO_DB_READ_OPS" 0
    dbWriteOps := getEnvInt env "VECRO_DB_WRITE_OPS" 0
    dbUser := getEnvString env "VECRO_DB_USER" ""
    dbPassword := getEnvString env "VECRO_DB_PASSWORD" ""
    dbCollection := getEnvString env "VECRO_DB_COLLECTION" ""
    listenAddress := getEnvString env "VECRO_LISTEN_ADDRESS" ":8080"
    subsystem := getEnvString env "VECRO_SUBSYSTEM" "subsystem"
    name := getEnvString env "VECRO_NAME" "name" }

/-- Process startup as in main: configuration resolution is total — no
environment value can abort it — followed by the store-connection
phase, the only step that can terminate the process. -/
def mainStartup (env : Env) (connect ping : Except String Unit) :
    StartupOutcome × Config :=
  (storeStartup connect ping, resolveConfig env)

/-- An environment with a malformed read-op count and every other
variable missing. -/
def envBad : Env := fun k =>
  if k = "VECRO_DB_READ_OPS" then some "12x" else none

/-- The parameters main uses to build the MongoDB client and select the
collection (main.go lines 185-201): the URI and the credentials are
hardcoded, the database and collection names are constants; the
resolved configuration is not consulted. -/
structure MongoConnectionParams where
  uri : String
  username : String
  password : String
  database : String
  collection : String
deriving DecidableEq

/-- The connection parameters as a function of the resolved
configuration, exactly as main builds them (main.go lines 185-201):
every field is a hardcoded constant, no configuration field is read. -/
def connectionParamsOf (_cfg : Config) : MongoConnectionParams :=
  { uri := "mongodb://localhost"
    username := "root"
    password := "password"
    database := "data"
    collection := "items" }

/-- The startup log lines of main (main.go lines 123-134), in order. -/
def startupLogLines (cfg : Config) : List String :=
  [ "Info db read ops: " ++ toString cfg.dbReadOps,
    "Info db write ops: " ++ toString cfg.dbWriteOps,
    "Info db user: " ++ cfg.dbUser,
    "Info db password: " ++ cfg.dbPassword,
    "Info db collection: " ++ cfg.dbCollection,
    "Info listen_address: " ++ cfg.listenAddress,
    "Info name: " ++ cfg.name ++ " subsystem: " ++ cfg.subsystem ]

/-- Override one environment variable. -/
def setEnv (env : Env) (key v : String) : Env :=
  fun k => if k = key then some v else env k

/-- The response-size value the transport stores in the call context
under ContextKeyResponseSize after encoding the response. -/
structure FinalizerCtx where
  responseSize : Int
deriving DecidableEq

/-- Shallow embedding of the ServerFinalizer registered in main
(main.go lines 229-233): read the encoded response's byte size from the
call context and add it to the throughput counter. -/
def serverFinalizer (ctx : FinalizerCtx) (throughput : Int) : Int :=
  throughput + ctx.responseSize

/-- Modelled from the spec: the transport runs the finalizer exactly
once per completed call, with the context carrying that call's encoded
response size; a sequence of completed calls folds the finalizer over
their sizes. -/
def transportCompletedCalls (sizes : List Int) (throughput : Int) : Int :=
  sizes.foldl (fun acc s => serverFinalizer { responseSize := s } acc) throughput

/-- C1 counterexample: the pipeline assembled in main differs observably
from the spec's claimed nesting Tracing(Logging(Instrumenting(Base))) —
already at readOps = 1, writeOps = 0 with an always-succeeding store the
two event traces disagree. -/
theorem C1_counterexample :
    mainPipeline ⟨1, 0⟩ tenByteStore ≠ specOrderPipeline ⟨1, 0⟩ tenByteStore := by
  decide

/-- C1 (amended): for every inbound call the middleware wraps execute in
the fixed nesting order Tracing outermost, then Instrumenting, then
Logging, then the Base Workload Service business logic: the composed
pipeline is Tracing around Instrumenting(Logging(Base Workload
Service)), and the middleware chain never alters the business result. -/
theorem C1_nesting_order (cfg : WorkloadConfig) (store : Store) :
    (mainPipeline cfg store).2 =
      Ev.spanStart :: Ev.instrBefore :: Ev.logBefore :: (baseService cfg store).2
        ++ [Ev.logAfter, Ev.instrAfter, Ev.spanEnd]
    ∧ (mainPipeline cfg store).1 = (baseService cfg store).1 := by
  simp [mainPipeline, tracingMiddlewareEv, makeBaseEndPoint,
    instrumentingMiddleware, loggingMiddleware]

/-- Shifting the start index of a sum of byte sizes by one. -/
theorem sum_shift (bytes : Nat → Nat) (i n : Nat) :
    ∑ j in Finset.range (n + 1), bytes (i + j)
      = bytes i + ∑ j in Finset.range n, bytes (i + 1 + j) := by
  have hAB : (∑ j in Finset.range n, bytes (i + (j + 1)))
      = ∑ j in Finset.range n, bytes (i + 1 + j) :=
    Finset.sum_congr rfl (fun j _ => by congr 1; omega)
  rw [Finset.sum_range_succ', hAB]
  simp [Nat.add_comm]

/-- When every store operation succeeds, the operation loop performs
every listed operation in order and accumulates all byte sizes. -/
theorem runOps_all_ok (store : Store) (bytes : Nat → Nat)
    (h : ∀ j, store j = Except.ok (bytes j)) :
    ∀ (ops : List OpKind) (i acc : Nat),
      runOps store ops i acc =
        (Except.ok (acc + ∑ j in Finset.range ops.length, bytes (i + j)),
         ops.map Ev.storeOp)
  | [], i, acc => by simp [runOps]
  | op :: rest, i, acc => by
    have ih := runOps_all_ok store bytes h rest (i + 1) (acc + bytes i)
    simp only [runOps, h i, List.length_cons, List.map_cons]
    rw [ih]
    simp [sum_shift, Nat.add_assoc]

/-- C2: for every configured readOps = r and writeOps = w, a successful
call to the Base Workload Service invokes the Store Gateway's read
operation exactly r times and its write operation exactly w times, and
aggregates the byte sizes of all operations into the Response. -/
theorem C2_operation_counts (r w : Nat) (store : Store) (bytes : Nat → Nat)
    (h : ∀ j, store j = Except.ok (bytes j)) :
    (baseService ⟨r, w⟩ store).1
        = Except.ok ⟨∑ j in Finset.range (r + w), bytes j⟩
    ∧ gatewayCalls (baseService ⟨r, w⟩ store).2 OpKind.read = r
    ∧ gatewayCalls (baseService ⟨r, w⟩ store).2 OpKind.write = w := by
  have hrun := runOps_all_ok store bytes h (opsList r w) 0 0
  have hlen : (opsList r w).length = r + w := by simp [opsList]
  refine ⟨?_, ?_, ?_⟩
  · simp [baseService, hrun, hlen, Except.map]
  · simp only [baseService, gatewayCalls]
    rw [hrun]
    simp +decide [opsList, List.map_append, List.map_replicate,
      List.count_append, List.count_replicate]
  · simp only [baseService, gatewayCalls]
    rw [hrun]
    simp +decide [opsList, List.map_append, List.map_replicate,
      List.count_append, List.count_replicate]

/-- C2 witness: with readOps = 3, writeOps = 2 and every gateway call
succeeding with 10 bytes, the Response byte total is 50, no error is
returned, and exactly 3 reads and 2 writes were issued. -/
theorem C2_witness :
    (baseService ⟨3, 2⟩ tenByteStore).1 = Except.ok ⟨50⟩
    ∧ gatewayCalls (baseService ⟨3, 2⟩ tenByteStore).2 OpKind.read = 3
    ∧ gatewayCalls (baseService ⟨3, 2⟩ tenByteStore).2 OpKind.write = 2 := by
  have h := C2_operation_counts 3 2 tenByteStore (fun _ => 10) (fun _ => rfl)
  simpa using h

/-- When the first store failure happens at operation index k, the
operation loop stops right after it: k + 1 operations in total. -/
theorem runOps_fail (store : Store) :
    ∀ (ops : List OpKind) (k i acc : Nat),
      k < ops.length →
      (∀ j, j < k → ∃ b, store (i + j) = Except.ok b) →
      store (i + k) = Except.error StoreErr.err →
      (runOps store ops i acc).1 = Except.error StoreErr.err
      ∧ (runOps store ops i acc).2.length = k + 1
  | [], k, i, acc, hk, _, _ => absurd hk (by simp)
  | op :: rest, 0, i, acc, hk, hok, hfail => by
    have hi : store i = Except.error StoreErr.err := by simpa using hfail
    simp [runOps, hi]
  | op :: rest, k + 1, i, acc, hk, hok, hfail => by
    obtain ⟨b, hb⟩ := hok 0 (Nat.succ_pos k)
    have hb' : store i = Except.ok b := by simpa using hb
    have ih := runOps_fail store rest k (i + 1) (acc + b)
      (by simpa using Nat.lt_of_succ_lt_succ hk)
      (fun j hj => by
        obtain ⟨c, hc⟩ := hok (j + 1) (Nat.succ_lt_succ hj)
        have hidx : i + 1 + j = i + (j + 1) := by omega
        exact ⟨c, by rw [hidx]; exact hc⟩)
      (by
        have hidx : i + 1 + k = i + (k + 1) := by omega
        rw [hidx]; exact hfail)
    simp [runOps, hb', ih.1, ih.2]

/-- C3: if the Store Gateway first fails on the operation at 0-based
index k (the (k+1)-st operation, with k + 1 ≤ r + w), Execute returns a
store-operation error and exactly k + 1 gateway invocations occur —
none beyond the failing one. -/
theorem C3_failure_stops_operations (r w k : Nat) (store : Store)
    (hk : k < r + w)
    (hok : ∀ j, j < k → ∃ b, store j = Except.ok b)
    (hfail : store k = Except.error StoreErr.err) :
    (baseService ⟨r, w⟩ store).1 = Except.error StoreErr.err
    ∧ (baseService ⟨r, w⟩ store).2.length = k + 1 := by
  have h := runOps_fail store (opsList r w) k 0 0
    (by simp [opsList]; omega)
    (fun j hj => by simpa using hok j hj)
    (by simpa using hfail)
  simp [baseService, h.1, h.2, Except.map]

/-- C3 witness: with readOps = 2, writeOps = 0 and the gateway failing
on the 2nd read, Execute returns a store-operation error and exactly 2
gateway invocations occurred, never 3. -/
theorem C3_witness :
    (baseService ⟨2, 0⟩ failSecondStore).1 = Except.error StoreErr.err
    ∧ (baseService ⟨2, 0⟩ failSecondStore).2.length = 2 := by
  have h := C3_failure_stops_operations 2 0 1 failSecondStore (by omega)
    (fun j hj => ⟨10, by
      have hj0 : j = 0 := by omega
      subst hj0
      rfl⟩)
    rfl
  simpa using h

/-- C4: the Tracing Middleware ends the span it starts on every exit
path of the wrapped endpoint call — whether the wrapped endpoint
returns normally, returns an error, or terminates abnormally, the span
started for the invocation is ended exactly once before the middleware
returns, and the outcome is propagated unchanged. -/
theorem C4_span_ended_every_path {α : Type} (next : Ctx → Outcome α)
    (fresh : SpanId) (ctx : Ctx) :
    ((tracingMiddleware next fresh ctx).2).endCount = 1
    ∧ (tracingMiddleware next fresh ctx).1
        = next ((tracerStart (extractParent ctx) fresh).1) := by
  exact ⟨rfl, rfl⟩

/-- C5: on every invocation of the Tracing Middleware, a propagated
trace context carried by the inbound request becomes the parent of the
new span; when no parent can be extracted (no stored request, or no
valid trace context in its headers) this is not an error and the
middleware degrades gracefully to a root span; in both cases the
wrapped endpoint is invoked with the span-bearing context and its
outcome is returned. -/
theorem C5_parent_extraction {α : Type} (next : Ctx → Outcome α)
    (fresh sid : SpanId) (ctx : Ctx) :
    (ctx.httpRequest = some (some sid) →
        ((tracingMiddleware next fresh ctx).2).parent = some sid)
    ∧ (ctx.spanCtx = none →
        (ctx.httpRequest = none ∨ ctx.httpRequest = some none) →
        ((tracingMiddleware next fresh ctx).2).parent = none)
    ∧ ((tracerStart (extractParent ctx) fresh).1).spanCtx = some fresh
    ∧ (tracingMiddleware next fresh ctx).1
        = next ((tracerStart (extractParent ctx) fresh).1) := by
  refine ⟨?_, ?_, rfl, rfl⟩
  · intro h
    simp [tracingMiddleware, tracerStart, extractParent, h,
      propagatorExtract, endSpan]
  · intro hs hr
    rcases hr with h | h <;>
      simp [tracingMiddleware, tracerStart, extractParent, h, hs,
        propagatorExtract, endSpan]

/-- C5 witness: with an inbound request carrying propagated trace
context 7 the span's parent is 7; with no stored request and no ambient
span context the span is a root. -/
theorem C5_witness :
    ((tracingMiddleware (fun _ => Outcome.ok 0) 1 ⟨some (some 7), none⟩).2).parent
      = some 7
    ∧ ((tracingMiddleware (fun _ => Outcome.ok 0) 1 ⟨none, none⟩).2).parent
      = none := by
  refine ⟨?_, ?_⟩
  · exact (C5_parent_extraction (fun _ => Outcome.ok 0) 1 7
      ⟨some (some 7), none⟩).1 rfl
  · exact ((C5_parent_extraction (fun _ => Outcome.ok 0) 1 7
      ⟨none, none⟩).2).1 rfl (Or.inl rfl)

/-- C6: if the backing store cannot be reached or authentication fails
at startup — connect or ping returns an error — the process terminates
immediately with a fatal error; it does not continue in a store-less
mode. -/
theorem C6_store_failure_fatal (env : Env) (c p : Except String Unit)
    (h : (∃ e, c = Except.error e) ∨ (∃ e, p = Except.error e)) :
    (mainStartup env c p).1 = StartupOutcome.fatal := by
  rcases h with ⟨e, he⟩ | ⟨e, he⟩ <;> subst he
  · rfl
  · cases c <;> rfl

/-- C6 witness: an unreachable store at connect time is fatal. -/
theorem C6_witness :
    (mainStartup (fun _ => none) (Except.error "connection refused")
        (Except.ok ())).1 = StartupOutcome.fatal :=
  C6_store_failure_fatal (fun _ => none) (Except.error "connection refused")
    (Except.ok ()) (Or.inl ⟨"connection refused", rfl⟩)

/-- C7: a malformed or missing environment value is never fatal — the
startup outcome is decided by the store phase alone — and the fallback
defaults are substituted: read-op and write-op counts 0 when their
variables are missing or malformed, listen address ":8080", service
name "name" and subsystem "subsystem" when theirs are missing. -/
theorem C7_config_errors_tolerated (env : Env)
    (hr : env "VECRO_DB_READ_OPS" = none
        ∨ ∃ v, env "VECRO_DB_READ_OPS" = some v ∧ atoi v = none)
    (hw : env "VECRO_DB_WRITE_OPS" = none
        ∨ ∃ v, env "VECRO_DB_WRITE_OPS" = some v ∧ atoi v = none)
    (hl : env "VECRO_LISTEN_ADDRESS" = none)
    (hn : env "VECRO_NAME" = none)
    (hs : env "VECRO_SUBSYSTEM" = none) :
    (∀ c p, (mainStartup env c p).1 = storeStartup c p)
    ∧ (resolveConfig env).dbReadOps = 0
    ∧ (resolveConfig env).dbWriteOps = 0
    ∧ (resolveConfig env).listenAddress = ":8080"
    ∧ (resolveConfig env).name = "name"
    ∧ (resolveConfig env).subsystem = "subsystem" := by
  refine ⟨fun c p => rfl, ?_, ?_, ?_, ?_, ?_⟩
  · rcases hr with h | ⟨v, hv, hm⟩
    · simp [resolveConfig, getEnvInt, h]
    · simp [resolveConfig, getEnvInt, hv, hm]
  · rcases hw with h | ⟨v, hv, hm⟩
    · simp [resolveConfig, getEnvInt, h]
    · simp [resolveConfig, getEnvInt, hv, hm]
  · simp [resolveConfig, getEnvString, hl]
  · simp [resolveConfig, getEnvString, hn]
  · simp [resolveConfig, getEnvString, hs]

/-- C7 witness: with a malformed read-op count and all other variables
missing, startup proceeds to running (given a healthy store) and the
documented defaults are in force. -/
theorem C7_witness :
    (mainStartup envBad (Except.ok ()) (Except.ok ())).1
        = StartupOutcome.running
    ∧ (resolveConfig envBad).dbReadOps = 0
    ∧ (resolveConfig envBad).dbWriteOps = 0
    ∧ (resolveConfig envBad).listenAddress = ":8080"
    ∧ (resolveConfig envBad).name = "name"
    ∧ (resolveConfig envBad).subsystem = "subsystem" := by
  have h := C7_config_errors_tolerated envBad
    (Or.inr ⟨"12x", by decide, by decide⟩)
    (Or.inl (by decide)) (by decide) (by decide) (by decide)
  exact ⟨by rw [h.1]; rfl, h.2.1, h.2.2.1, h.2.2.2.1, h.2.2.2.2.1,
    h.2.2.2.2.2⟩

/-- C8: for every completed inbound call the transport finalizer reads
the encoded response's byte size from the call context and adds exactly
that size to the throughput counter; over a sequence of completed calls
the counter grows by exactly the sum of the encoded sizes, once per
call. -/
theorem C8_throughput_accounting (sizes : List Int) (tp s : Int) :
    serverFinalizer ⟨s⟩ tp = tp + s
    ∧ transportCompletedCalls sizes tp = tp + sizes.sum := by
  refine ⟨rfl, ?_⟩
  induction sizes generalizing tp with
  | nil => simp [transportCompletedCalls]
  | cons a l ih =>
    have hl := ih (tp + a)
    simp only [transportCompletedCalls, List.foldl_cons, List.sum_cons,
      serverFinalizer] at hl ⊢
    rw [hl]
    omega

/-- C9: the environment variables VECRO_DB_USER, VECRO_DB_PASSWORD and
VECRO_DB_COLLECTION are parsed into the configuration at startup but
have no effect on the database connection: for every environment the
MongoDB client is constructed with URI "mongodb://localhost" and the
hardcoded credentials root / password, and the collection used is
database "data", collection "items". -/
theorem C9_connection_ignores_env (env1 env2 : Env) :
    connectionParamsOf (resolveConfig env1)
        = connectionParamsOf (resolveConfig env2)
    ∧ connectionParamsOf (resolveConfig env1)
        = { uri := "mongodb://localhost", username := "root",
            password := "password", database := "data",
            collection := "items" }
    ∧ (resolveConfig env1).dbUser = getEnvString env1 "VECRO_DB_USER" ""
    ∧ (resolveConfig env1).dbPassword
        = getEnvString env1 "VECRO_DB_PASSWORD" ""
    ∧ (resolveConfig env1).dbCollection
        = getEnvString env1 "VECRO_DB_COLLECTION" "" :=
  ⟨rfl, rfl, rfl, rfl, rfl⟩

/-- Appending the same string on the left is injective. -/
theorem string_append_left_inj (s : String) {t u : String}
    (h : s ++ t = s ++ u) : t = u := by
  cases s; cases t; cases u
  simp [String.ext_iff] at h ⊢
  exact h

/-- C10: the value of VECRO_DB_PASSWORD flows verbatim into the startup
log output — two startup runs differing only in that variable produce
different logged lines (the password is printed in clear text). -/
theorem C10_password_logged (env : Env) (v1 v2 : String) (h : v1 ≠ v2) :
    startupLogLines (resolveConfig (setEnv env "VECRO_DB_PASSWORD" v1))
      ≠ startupLogLines (resolveConfig (setEnv env "VECRO_DB_PASSWORD" v2)) := by
  intro heq
  apply h
  have h4 := congrArg (fun l => l.get? 3) heq
  simp [startupLogLines, resolveConfig, getEnvString, setEnv] at h4
  exact string_append_left_inj "Info db password: " h4

/-- C10 witness: two environments identical except for the password
value produce different startup logs. -/
theorem C10_witness :
    startupLogLines (resolveConfig
        (setEnv (fun _ => none) "VECRO_DB_PASSWORD" "hunter2"))
      ≠ startupLogLines (resolveConfig
        (setEnv (fun _ => none) "VECRO_DB_PASSWORD" "letmein")) :=
  C10_password_logged (fun _ => none) "hunter2" "letmein" (by decide)

end Vecro
